import Mathlib

/-!
Shallow embedding of the mhansen/domain-exporter repository.

The embedding models the pagination-and-aggregation core:
* the data model (`LocationFilter`, `ResidentialSearchRequest`, `SearchResult`,
  `PropertyListing`, `PropertyDetails`) from the Go struct declarations;
* the paged fetcher `SearchResidential` (src/unnamed/part_000, lines 104-122):
  a loop that issues one page request per iteration, guarded by
  `len(listings) < 1000`, breaking on the first empty page and aborting on the
  first error.  The loop is embedded with an explicit fuel parameter; with the
  initial fuel 1000 the fuel can never run out before the guard stops the loop
  (each iteration consumes one fuel and appends at least one record), which is
  proved as a fuel-irrelevance theorem below.  The loop is instrumented to also
  return the trace of issued page requests, each paired with the number of
  records accumulated at the moment the request was issued;
* the aggregation fold (`listingCount.WithLabelValues(...).Inc()`),
  modelled as an association table from label tuples to counts;
* the batch collector `Collect` (src/domain_exporter.go, lines 111-156) and the
  on-demand handler `domainHandler` (src/unnamed/part_000, lines 124-169).

Go `int`/`int32` fields are modelled as `Int` (no arithmetic in the program
comes near the overflow boundary: page numbers stay below 1001), Go `float32`
bedroom/bathroom counts are modelled as exact rationals (`ℚ`); property counts
are small multiples of 1/2, all exactly representable in float32, and Go's
`fmt.Sprintf("%.1f", x)` performs correctly-rounded decimal formatting of that
exact value with ties to even, which `fmtDec1` reproduces on `ℚ`.
-/

/-- Go struct `LocationFilter` (src/unnamed/part_000, lines 171-178). -/
structure LocationFilter where
  state : String
  region : String
  area : String
  suburb : String
  postCode : String
  includeSurroundingSuburbs : Bool
deriving DecidableEq

/-- Go struct `ResidentialSearchRequest` (src/unnamed/part_000, lines 180-188). -/
structure ResidentialSearchRequest where
  listingType : String
  minBedrooms : Int
  minBathrooms : Int
  minCarspaces : Int
  pageSize : Int
  pageNumber : Int
  locations : List LocationFilter
deriving DecidableEq

/-- Go struct `PropertyDetails` (src/unnamed/part_000, lines 199-207). -/
structure PropertyDetails where
  state : String
  propertyType : String
  bathrooms : ℚ
  bedrooms : ℚ
  carSpaces : Int
  suburb : String
  postcode : String
deriving DecidableEq

/-- Go struct `PropertyListing` (src/unnamed/part_000, lines 195-197). -/
structure PropertyListing where
  propertyDetails : PropertyDetails
deriving DecidableEq

/-- Go struct `SearchResult` (src/unnamed/part_000, lines 191-193). -/
structure SearchResult where
  listing : PropertyListing
deriving DecidableEq

/-- The metric label tuple used by `listingCount.WithLabelValues`
(src/unnamed/part_000, lines 157-164): label names as declared on line 130. -/
structure AggregateKey where
  propertytype : String
  suburb : String
  postcode : String
  bedrooms : String
  bathrooms : String
  carspaces : String
deriving DecidableEq

/-- Decidable equality for fetch results, used only to evaluate concrete
witnesses. -/
instance {ε α : Type} [DecidableEq ε] [DecidableEq α] : DecidableEq (Except ε α) :=
  fun a b =>
    match a, b with
    | Except.error e, Except.error f =>
      if h : e = f then Decidable.isTrue (by rw [h])
      else Decidable.isFalse (by intro hc; injection hc; contradiction)
    | Except.ok x, Except.ok y =>
      if h : x = y then Decidable.isTrue (by rw [h])
      else Decidable.isFalse (by intro hc; injection hc; contradiction)
    | Except.error _, Except.ok _ => Decidable.isFalse (by intro hc; exact Except.noConfusion hc)
    | Except.ok _, Except.error _ => Decidable.isFalse (by intro hc; exact Except.noConfusion hc)

/-- The number of tenths closest to `q * 10`, ties to even: the rounding Go's
`strconv` applies to the exactly-known binary value when formatting with one
decimal.  Working from `q.num` and `q.den` directly keeps the definition
kernel-computable: `a.fdiv b` is the floor of `q * 10`, `r` its fractional
remainder scaled by the denominator, and a tie is `2 * r = b`. -/
def round10 (q : ℚ) : ℤ :=
  let a : ℤ := q.num * 10
  let b : ℤ := (q.den : ℤ)
  let f : ℤ := a.fdiv b
  let r : ℤ := a - f * b
  if 2 * r < b then f
  else if b < 2 * r then f + 1
  else if f % 2 = 0 then f else f + 1

/-- Print a number of tenths as a decimal string with one digit after the
point. -/
def fmtDec1Core (n : ℤ) : String :=
  (if n < 0 then "-" else "") ++ Nat.repr (n.natAbs / 10) ++ "." ++ Nat.repr (n.natAbs % 10)

/-- Model of `fmt.Sprintf("%.1f", x)` on the exact value of `x`: one digit
after the decimal point, correctly rounded with ties to even.  (The sign of a
negative value rounding to -0.0 is not modelled; property counts in this
program are nonnegative.) -/
def fmtDec1 (q : ℚ) : String :=
  fmtDec1Core (round10 q)

/-- Model of `fmt.Sprintf("%v", c)` for the `int32` car-space count: plain
decimal integer string. -/
def fmtIntV (i : Int) : String := i.repr

/-- The label tuple computed for one listing in the aggregation loops
(src/unnamed/part_000 lines 157-164, src/domain_exporter.go lines 144-151). -/
def labelsOf (l : SearchResult) : AggregateKey :=
  { propertytype := l.listing.propertyDetails.propertyType
    suburb := l.listing.propertyDetails.suburb
    postcode := l.listing.propertyDetails.postcode
    bedrooms := fmtDec1 l.listing.propertyDetails.bedrooms
    bathrooms := fmtDec1 l.listing.propertyDetails.bathrooms
    carspaces := fmtIntV l.listing.propertyDetails.carSpaces }

/-- `WithLabelValues(key).Inc()` on a gauge-vector modelled as an association
table: increment the count stored under `k`, inserting a fresh entry with
count 1 on first occurrence. -/
def incKey (t : List (AggregateKey × Nat)) (k : AggregateKey) : List (AggregateKey × Nat) :=
  match t with
  | [] => [(k, 1)]
  | (k', n) :: rest => if k' = k then (k', n + 1) :: rest else (k', n) :: incKey rest k

/-- The aggregation loop `for _, l := range listings { ...Inc() }` folded into
an existing table. -/
def aggregateInto (t : List (AggregateKey × Nat)) (listings : List SearchResult) :
    List (AggregateKey × Nat) :=
  listings.foldl (fun t l => incKey t (labelsOf l)) t

/-- Sum of all counts stored in an aggregate table. -/
def tableTotal (t : List (AggregateKey × Nat)) : Nat :=
  (t.map Prod.snd).sum

/-- The loop body of `SearchResidential` (src/unnamed/part_000, lines 109-120):

    for len(listings) < 1000 {
      listingsPage, err := dc.SearchResidentialPage(rsr)
      if err != nil { return nil, err }
      if len(listingsPage) == 0 { break }
      listings = append(listings, listingsPage...)
      rsr.PageNumber++
    }

`fetchPage` models `dc.SearchResidentialPage`: one synchronous page request
that returns either an error (transport failure, non-200 status, or JSON
decode failure) or a finite decoded page.  The `Nat` argument is fuel driving
the structural recursion; when the fuel reaches 0 the loop returns exactly
what the guard-false branch returns, and `c10_loop_terminates` below proves
that any fuel with `1000 ≤ fuel + listings.length` (in particular the initial
fuel 1000) gives the same result, so the fuel is an artifact, not a semantic
bound.  The second component of the result is the instrumentation: the list of
issued page requests in order, each paired with `listings.length` at the
moment of issue. -/
def searchResidentialLoop
    (fetchPage : ResidentialSearchRequest → Except String (List SearchResult)) :
    Nat → ResidentialSearchRequest → List SearchResult →
      Except String (List SearchResult) × List (ResidentialSearchRequest × Nat)
  | 0, _, listings => (Except.ok listings, [])
  | fuel + 1, rsr, listings =>
    if listings.length < 1000 then
      match fetchPage rsr with
      | Except.error e => (Except.error e, [(rsr, listings.length)])
      | Except.ok listingsPage =>
        if listingsPage.length = 0 then (Except.ok listings, [(rsr, listings.length)])
        else
          let rest := searchResidentialLoop fetchPage fuel
            { rsr with pageNumber := rsr.pageNumber + 1 } (listings ++ listingsPage)
          (rest.1, (rsr, listings.length) :: rest.2)
    else (Except.ok listings, [])

/-- `SearchResidential` (src/unnamed/part_000, lines 104-122): overrides the
caller's `pageSize` and `pageNumber` on its local copy, then runs the capped
page loop starting from an empty accumulator.  An `Except.error` result
carries no records, matching the Go `return nil, err`. -/
def SearchResidential
    (fetchPage : ResidentialSearchRequest → Except String (List SearchResult))
    (rsr : ResidentialSearchRequest) : Except String (List SearchResult) :=
  (searchResidentialLoop fetchPage 1000
    { rsr with pageSize := 200, pageNumber := 0 } []).1

/-- The trace of page requests issued by one `SearchResidential` call:
each entry is the request sent together with the number of records
accumulated when it was sent. -/
def searchResidentialTrace
    (fetchPage : ResidentialSearchRequest → Except String (List SearchResult))
    (rsr : ResidentialSearchRequest) : List (ResidentialSearchRequest × Nat) :=
  (searchResidentialLoop fetchPage 1000
    { rsr with pageSize := 200, pageNumber := 0 } []).2

/-- A request with its page number replaced. -/
def atPage (rsr : ResidentialSearchRequest) (j : Int) : ResidentialSearchRequest :=
  { rsr with pageNumber := j }

/-- A well-behaved upstream holding `records` and serving them in pages of
size `P`: the request's page number selects the slice, an exhausted range
yields the empty page, and no request fails. -/
def pagedUpstream (records : List SearchResult) (P : Nat) :
    ResidentialSearchRequest → Except String (List SearchResult) :=
  fun rsr => Except.ok ((records.drop (rsr.pageNumber.toNat * P)).take P)

/-- An upstream that serves `records` in pages of size `P` but fails (e.g.
transport error or non-200 status) on the request for page `failAt`. -/
def failingUpstream (records : List SearchResult) (P failAt : Nat) (e : String) :
    ResidentialSearchRequest → Except String (List SearchResult) :=
  fun rsr =>
    if rsr.pageNumber.toNat = failAt then Except.error e
    else pagedUpstream records P rsr

/-- The search criteria built by `domainHandler` from the inbound query
parameters (src/unnamed/part_000, lines 133-148).  `pageSize` and
`pageNumber` are absent from the Go struct literal and therefore zero. -/
def onDemandCriteria (state suburb postCode : String) : ResidentialSearchRequest :=
  { listingType := "Rent"
    minBedrooms := 0
    minBathrooms := 0
    minCarspaces := 0
    pageSize := 0
    pageNumber := 0
    locations := [{ state := state
                    region := ""
                    area := ""
                    suburb := suburb
                    postCode := postCode
                    includeSurroundingSuburbs := false }] }

/-- `domainHandler` (src/unnamed/part_000, lines 124-169): build the criteria
from the query, fetch, and either fail the whole request with status 500 and
the message written by `fmt.Fprintf(w, "error searching domain: %v", err)`,
or return the aggregate table built from the fetched listings. -/
def domainHandler
    (fetchPage : ResidentialSearchRequest → Except String (List SearchResult))
    (state suburb postCode : String) :
    Except String (List (AggregateKey × Nat)) :=
  match SearchResidential fetchPage (onDemandCriteria state suburb postCode) with
  | Except.error e => Except.error ("error searching domain: " ++ e)
  | Except.ok listings => Except.ok (aggregateInto [] listings)

/-- The batch-mode `Collect` loop (src/domain_exporter.go, lines 126-153):
one shared table, one `search` call per criteria set; a failed set is logged
and skipped (`continue`), a successful set is aggregated into the shared
table.  `search` models `kc.dc.SearchResidential`. -/
def collect
    (search : ResidentialSearchRequest → Except String (List SearchResult))
    (searches : List ResidentialSearchRequest) : List (AggregateKey × Nat) :=
  searches.foldl
    (fun table rsr =>
      match search rsr with
      | Except.error _ => table
      | Except.ok listings => aggregateInto table listings)
    []

/-- A Go call frame for `SearchResidential`: the criteria struct is passed by
value, so the callee works on a copy and the caller's variable is returned
unchanged next to the call's result.  (The `Locations` slice header is copied
too; the callee never writes through it.) -/
def callSearchResidential
    (fetchPage : ResidentialSearchRequest → Except String (List SearchResult))
    (caller : ResidentialSearchRequest) :
    ResidentialSearchRequest × Except String (List SearchResult) :=
  (caller, SearchResidential fetchPage caller)

/-- Modelled from the spec: the page-request count asserted by claim C1,
`ceil(N/P)` plus one extra request exactly when `N` is a nonzero multiple of
`P`.  Stated for comparison with the count the code actually produces. -/
def claimRequestCount (N P : Nat) : Nat :=
  (N + P - 1) / P + (if N % P = 0 ∧ N ≠ 0 then 1 else 0)

/-- A listing record with all fields zero/empty, for concrete witnesses. -/
def srEmpty : SearchResult :=
  { listing := { propertyDetails :=
      { state := ""
        propertyType := ""
        bathrooms := 0
        bedrooms := 0
        carSpaces := 0
        suburb := ""
        postcode := "" } } }

/-- An all-zero search request, for concrete witnesses. -/
def rsrDefault : ResidentialSearchRequest :=
  { listingType := ""
    minBedrooms := 0
    minBathrooms := 0
    minCarspaces := 0
    pageSize := 0
    pageNumber := 0
    locations := [] }

/-- Shape of a string with exactly one digit after the decimal point. -/
def oneDecimalString (s : String) : Prop :=
  ∃ a d : String, s = a ++ "." ++ d ∧ d.length = 1

lemma tableTotal_cons (k : AggregateKey) (n : Nat) (rest : List (AggregateKey × Nat)) :
    tableTotal ((k, n) :: rest) = n + tableTotal rest := by
  simp [tableTotal]

lemma tableTotal_incKey (t : List (AggregateKey × Nat)) (k : AggregateKey) :
    tableTotal (incKey t k) = tableTotal t + 1 := by
  induction t with
  | nil => rfl
  | cons p rest ih =>
    obtain ⟨k', n⟩ := p
    by_cases h : k' = k
    · subst h
      simp [incKey, tableTotal_cons]
      omega
    · simp only [incKey, if_neg h, tableTotal_cons, ih]
      omega

lemma tableTotal_aggregateInto (listings : List SearchResult) :
    ∀ t : List (AggregateKey × Nat),
      tableTotal (aggregateInto t listings) = tableTotal t + listings.length := by
  induction listings with
  | nil => intro t; simp [aggregateInto]
  | cons l ls ih =>
    intro t
    have step : aggregateInto t (l :: ls) = aggregateInto (incKey t (labelsOf l)) ls := rfl
    rw [step, ih (incKey t (labelsOf l)), tableTotal_incKey]
    simp
    omega

/-- Claim C3: aggregating any sequence of N fetched listing records into a
fresh table yields counts summing to exactly N, and the empty sequence folds
to an empty table. -/
theorem c3_aggregation_total :
    (∀ listings : List SearchResult,
      tableTotal (aggregateInto [] listings) = listings.length) ∧
    aggregateInto [] [] = [] := by
  constructor
  · intro listings
    rw [tableTotal_aggregateInto]
    simp [tableTotal]
  · rfl

lemma repr_digit_length : ∀ n : Nat, n < 10 → (Nat.repr n).length = 1 := by decide

lemma oneDecimalString_fmtDec1Core (n : ℤ) : oneDecimalString (fmtDec1Core n) :=
  ⟨(if n < 0 then "-" else "") ++ Nat.repr (n.natAbs / 10), Nat.repr (n.natAbs % 10),
    rfl, repr_digit_length _ (Nat.mod_lt _ (by omega))⟩

lemma rat_five_halves : (5 / 2 : ℚ) = ⟨5, 2, by decide, by decide⟩ := by
  rw [Rat.mk'_eq_divInt, Rat.divInt_eq_div]; norm_num

/-- Claim C5: the aggregate key's bedroom and bathroom fields are the record's
counts formatted with exactly one decimal place, the car-space field is a
plain integer string, and a record with bedrooms=3.0, bathrooms=2.5,
carspaces=1 yields label values "3.0", "2.5", "1" exactly. -/
theorem c5_label_formatting :
    (∀ l : SearchResult,
      (labelsOf l).bedrooms = fmtDec1 l.listing.propertyDetails.bedrooms ∧
      (labelsOf l).bathrooms = fmtDec1 l.listing.propertyDetails.bathrooms ∧
      (labelsOf l).carspaces = fmtIntV l.listing.propertyDetails.carSpaces) ∧
    (∀ q : ℚ, oneDecimalString (fmtDec1 q)) ∧
    fmtDec1 3 = "3.0" ∧ fmtDec1 (5 / 2) = "2.5" ∧ fmtIntV 1 = "1" := by
  refine ⟨fun l => ⟨rfl, rfl, rfl⟩, fun q => oneDecimalString_fmtDec1Core _, by decide, ?_, by decide⟩
  rw [rat_five_halves]
  decide

/-- Claim C8: the on-demand criteria has fixed listing category "Rent", zero
minimum thresholds, and exactly one LocationFilter taking state, suburb and
postCode 1:1 from the request with every other field at its zero value; in
particular suburb=Pyrmont alone yields one LocationFilter with
suburb="Pyrmont" and all other fields zero/empty. -/
theorem c8_on_demand_criteria :
    (∀ state suburb postCode : String,
      onDemandCriteria state suburb postCode =
        { listingType := "Rent"
          minBedrooms := 0
          minBathrooms := 0
          minCarspaces := 0
          pageSize := 0
          pageNumber := 0
          locations := [{ state := state
                          region := ""
                          area := ""
                          suburb := suburb
                          postCode := postCode
                          includeSurroundingSuburbs := false }] }) ∧
    onDemandCriteria ("") ("Pyrmont") ("") =
      { listingType := "Rent"
        minBedrooms := 0
        minBathrooms := 0
        minCarspaces := 0
        pageSize := 0
        pageNumber := 0
        locations := [{ state := ""
                        region := ""
                        area := ""
                        suburb := "Pyrmont"
                        postCode := ""
                        includeSurroundingSuburbs := false }] } :=
  ⟨fun _ _ _ => rfl, rfl⟩

/-- Claim C9: the criteria is received by value, so the caller's criteria
value is unchanged by the call, and the call's result and request trace are
independent of the caller-supplied pageSize and pageNumber, which the fetcher
overwrites on its local copy before the first request. -/
theorem c9_criteria_by_value :
    (∀ (fetchPage : ResidentialSearchRequest → Except String (List SearchResult))
       (rsr : ResidentialSearchRequest),
      (callSearchResidential fetchPage rsr).1 = rsr) ∧
    (∀ (fetchPage : ResidentialSearchRequest → Except String (List SearchResult))
       (rsr : ResidentialSearchRequest) (ps pn : Int),
      SearchResidential fetchPage { rsr with pageSize := ps, pageNumber := pn }
          = SearchResidential fetchPage rsr ∧
      searchResidentialTrace fetchPage { rsr with pageSize := ps, pageNumber := pn }
          = searchResidentialTrace fetchPage rsr) :=
  ⟨fun _ _ => rfl, fun _ _ _ _ => ⟨rfl, rfl⟩⟩

lemma loop_succ (fetchPage : ResidentialSearchRequest → Except String (List SearchResult))
    (fuel : Nat) (rsr : ResidentialSearchRequest) (listings : List SearchResult) :
    searchResidentialLoop fetchPage (fuel + 1) rsr listings =
      if listings.length < 1000 then
        match fetchPage rsr with
        | Except.error e => (Except.error e, [(rsr, listings.length)])
        | Except.ok listingsPage =>
          if listingsPage.length = 0 then (Except.ok listings, [(rsr, listings.length)])
          else
            ((searchResidentialLoop fetchPage fuel
                { rsr with pageNumber := rsr.pageNumber + 1 } (listings ++ listingsPage)).1,
             (rsr, listings.length) ::
               (searchResidentialLoop fetchPage fuel
                 { rsr with pageNumber := rsr.pageNumber + 1 } (listings ++ listingsPage)).2)
      else (Except.ok listings, []) := rfl

lemma ceil_div_step (P M : Nat) (hP : 0 < P) (hM : 0 < M) :
    (M + P - 1) / P = (M - P + P - 1) / P + 1 := by
  by_cases h : M ≤ P
  · have h1 : M - P = 0 := by omega
    have h2 : (0 + P - 1) / P = 0 := Nat.div_eq_of_lt (by omega)
    have h3 : M + P - 1 = (M - 1) + P := by omega
    rw [h1, h2, h3, Nat.add_div_right _ hP, Nat.div_eq_of_lt (by omega)]
  · have h3 : M + P - 1 = (M - P + P - 1) + P := by omega
    rw [h3, Nat.add_div_right _ hP]

lemma loop_paged (records : List SearchResult) (P : Nat) (hP : 0 < P)
    (hN : records.length ≤ 1000) :
    ∀ (fuel k : Nat) (rsr : ResidentialSearchRequest),
      1000 ≤ fuel + min (k * P) records.length →
      searchResidentialLoop (pagedUpstream records P) fuel (atPage rsr (k : Int))
          (records.take (k * P))
        = (Except.ok records,
           (List.range' k ((records.length - k * P + P - 1) / P
              + (if records.length < 1000 then 1 else 0))).map
             (fun (j : Nat) => (atPage rsr (j : Int), min (j * P) records.length))) := by
  intro fuel
  induction fuel with
  | zero =>
    intro k rsr hinv
    have h1 : records.length = 1000 := by omega
    have h2 : records.length ≤ k * P := by omega
    have hcount : (records.length - k * P + P - 1) / P
        + (if records.length < 1000 then 1 else 0) = 0 := by
      rw [if_neg (by omega)]
      have hz : records.length - k * P = 0 := by omega
      rw [hz]
      exact Nat.div_eq_of_lt (by omega)
    rw [hcount, List.take_of_length_le h2]
    rfl
  | succ fuel ih =>
    intro k rsr hinv
    have hlen : (records.take (k * P)).length = min (k * P) records.length := by
      rw [List.length_take]
    have hfetch : pagedUpstream records P (atPage rsr (k : Int))
        = Except.ok ((records.drop (k * P)).take P) := by
      simp [pagedUpstream, atPage]
    rw [loop_succ]
    simp only [hfetch, hlen]
    by_cases hM : records.length ≤ k * P
    · have hpage : (records.drop (k * P)).take P = [] := by
        rw [List.drop_eq_nil_of_le hM]
        simp
      by_cases hcap : records.length < 1000
      · rw [if_pos (by omega)]
        rw [hpage]
        simp only [List.length_nil, if_true]
        have hcount : (records.length - k * P + P - 1) / P
            + (if records.length < 1000 then 1 else 0) = 1 := by
          rw [if_pos hcap]
          have hz : records.length - k * P = 0 := by omega
          rw [hz]
          have hd : (0 + P - 1) / P = 0 := Nat.div_eq_of_lt (by omega)
          omega
        have hmin : min (k * P) records.length = records.length := by omega
        rw [hcount, List.take_of_length_le hM]
        simp [List.range', hmin]
      · rw [if_neg (by omega)]
        have hcount : (records.length - k * P + P - 1) / P
            + (if records.length < 1000 then 1 else 0) = 0 := by
          rw [if_neg hcap]
          have hz : records.length - k * P = 0 := by omega
          rw [hz]
          exact Nat.div_eq_of_lt (by omega)
        rw [hcount, List.take_of_length_le hM]
        rfl
    · push_neg at hM
      rw [if_pos (by omega)]
      have hplen : ((records.drop (k * P)).take P).length = min P (records.length - k * P) := by
        rw [List.length_take, List.length_drop]
      rw [hplen, if_neg (by omega)]
      have hacc : records.take (k * P) ++ (records.drop (k * P)).take P
          = records.take ((k + 1) * P) := by
        rw [Nat.succ_mul, List.take_add]
      have hrsr : { atPage rsr (k : Int) with
            pageNumber := (atPage rsr (k : Int)).pageNumber + 1 }
          = atPage rsr ((k + 1 : Nat) : Int) := by
        simp [atPage]
      rw [hacc, hrsr, ih (k + 1) rsr (by rw [Nat.succ_mul]; omega)]
      have hstep : (records.length - k * P + P - 1) / P
          = (records.length - (k + 1) * P + P - 1) / P + 1 := by
        rw [Nat.succ_mul]
        have h1 : records.length - (k * P + P) = records.length - k * P - P := by omega
        rw [h1]
        exact ceil_div_step P (records.length - k * P) hP (by omega)
      have hcount : (records.length - k * P + P - 1) / P
            + (if records.length < 1000 then 1 else 0)
          = ((records.length - (k + 1) * P + P - 1) / P
            + (if records.length < 1000 then 1 else 0)) + 1 := by
        omega
      rw [hcount]
      have hr : List.range' k
            (((records.length - (k + 1) * P + P - 1) / P
              + (if records.length < 1000 then 1 else 0)) + 1)
          = k :: List.range' (k + 1)
            ((records.length - (k + 1) * P + P - 1) / P
              + (if records.length < 1000 then 1 else 0)) := rfl
      rw [hr, List.map_cons]

/-- Claim C1 counterexample: with 3 upstream records served in pages of size
2 the code issues 3 page requests (pages of 2, 1, and 0 records), while the
claim's formula ceil(3/2) + (1 if 3 is a nonzero multiple of 2) predicts 2:
the code does not stop on a partial page, only on an empty one, so the extra
empty-page request is also issued when the last nonempty page is partial. -/
theorem c1_request_count_counterexample :
    (List.replicate 3 srEmpty).length = 3 ∧ (3 : Nat) ≤ 1000 ∧
    (searchResidentialTrace (pagedUpstream (List.replicate 3 srEmpty) 2) rsrDefault).length = 3 ∧
    claimRequestCount 3 2 = 2 ∧ (3 : Nat) ≠ 2 := by
  refine ⟨by simp, by decide, by decide, by decide, by decide⟩

/-- Claim C1 as amended: for N upstream records ≤ 1000 served in pages of
size P > 0, SearchResidential returns exactly the N records, and issues
ceil(N/P) + 1 page requests when N < 1000 (the terminating empty page is
observed also when the last nonempty page is partial, and for N = 0 the
single request observes the empty first page), but exactly ceil(1000/P)
requests when N = 1000 (the cap guard stops the loop without the extra
empty-page request). -/
theorem c1_pagination_amended (records : List SearchResult) (P : Nat)
    (rsr : ResidentialSearchRequest) (hP : 0 < P) (hN : records.length ≤ 1000) :
    SearchResidential (pagedUpstream records P) rsr = Except.ok records ∧
    (searchResidentialTrace (pagedUpstream records P) rsr).length
      = (records.length + P - 1) / P + (if records.length < 1000 then 1 else 0) := by
  have key := loop_paged records P hP hN 1000 0 { rsr with pageSize := 200 } (by omega)
  have h0 : atPage { rsr with pageSize := 200 } ((0 : Nat) : Int)
      = { rsr with pageSize := 200, pageNumber := 0 } := by
    simp [atPage]
  have h1 : records.take (0 * P) = [] := by simp
  rw [h0, h1] at key
  constructor
  · show (searchResidentialLoop (pagedUpstream records P) 1000
      { rsr with pageSize := 200, pageNumber := 0 } []).1 = Except.ok records
    rw [key]
  · show (searchResidentialLoop (pagedUpstream records P) 1000
      { rsr with pageSize := 200, pageNumber := 0 } []).2.length = _
    rw [key]
    simp [List.length_range']

/-- Witness for the amended claim C1 at the spec's own scenario: 400 records
in pages of 200 give exactly 3 requests and all 400 records back. -/
theorem c1_pagination_amended_witness :
    0 < 200 ∧ (List.replicate 400 srEmpty).length ≤ 1000 ∧
    (SearchResidential (pagedUpstream (List.replicate 400 srEmpty) 200) rsrDefault
        = Except.ok (List.replicate 400 srEmpty) ∧
      (searchResidentialTrace (pagedUpstream (List.replicate 400 srEmpty) 200) rsrDefault).length
        = ((List.replicate 400 srEmpty).length + 200 - 1) / 200
          + (if (List.replicate 400 srEmpty).length < 1000 then 1 else 0)) :=
  ⟨by decide, by rw [List.length_replicate]; omega,
    c1_pagination_amended (List.replicate 400 srEmpty) 200 rsrDefault (by decide)
      (by rw [List.length_replicate]; omega)⟩

lemma loop_paged_over (records : List SearchResult) (hN : 1000 < records.length) :
    ∀ (fuel k : Nat) (rsr : ResidentialSearchRequest), k ≤ 5 →
      1000 ≤ fuel + k * 200 →
      searchResidentialLoop (pagedUpstream records 200) fuel (atPage rsr (k : Int))
          (records.take (k * 200))
        = (Except.ok (records.take 1000),
           (List.range' k (5 - k)).map (fun (j : Nat) => (atPage rsr (j : Int), j * 200))) := by
  intro fuel
  induction fuel with
  | zero =>
    intro k rsr hk5 hinv
    have hk : k = 5 := by omega
    subst hk
    have h5 : (5 : Nat) * 200 = 1000 := by norm_num
    rw [h5]
    rfl
  | succ fuel ih =>
    intro k rsr hk5 hinv
    by_cases hk : k = 5
    · subst hk
      have h5 : (5 : Nat) * 200 = 1000 := by norm_num
      rw [h5, loop_succ]
      have hlen : (records.take 1000).length = 1000 := by
        rw [List.length_take]
        omega
      rw [hlen, if_neg (by omega)]
      rfl
    · have hklt : k < 5 := by omega
      have hlen : (records.take (k * 200)).length = k * 200 := by
        rw [List.length_take]
        omega
      have hfetch : pagedUpstream records 200 (atPage rsr (k : Int))
          = Except.ok ((records.drop (k * 200)).take 200) := by
        simp [pagedUpstream, atPage]
      rw [loop_succ]
      simp only [hfetch, hlen]
      rw [if_pos (by omega)]
      have hplen : ((records.drop (k * 200)).take 200).length = 200 := by
        rw [List.length_take, List.length_drop]
        omega
      rw [hplen, if_neg (by omega)]
      have hacc : records.take (k * 200) ++ (records.drop (k * 200)).take 200
          = records.take ((k + 1) * 200) := by
        rw [Nat.succ_mul, List.take_add]
      have hrsr : { atPage rsr (k : Int) with
            pageNumber := (atPage rsr (k : Int)).pageNumber + 1 }
          = atPage rsr ((k + 1 : Nat) : Int) := by
        simp [atPage]
      rw [hacc, hrsr, ih (k + 1) rsr (by omega) (by rw [Nat.succ_mul]; omega)]
      have hr : 5 - k = (5 - (k + 1)) + 1 := by omega
      rw [hr]
      have hcons : List.range' k ((5 - (k + 1)) + 1)
          = k :: List.range' (k + 1) (5 - (k + 1)) := rfl
      rw [hcons, List.map_cons]

/-- Claim C2: for criteria with more than resultCap = 1000 records available
upstream (served at the fetcher's requested page size 200), every page
request is issued at a cumulative record count of at most 800, so no request
pushes the cumulative count past the 1000-record cap the upstream enforces;
the fetcher stops at exactly 1000 accumulated records. -/
theorem c2_never_pages_past_cap (records : List SearchResult)
    (rsr : ResidentialSearchRequest) (hN : 1000 < records.length) :
    SearchResidential (pagedUpstream records 200) rsr = Except.ok (records.take 1000) ∧
    ∀ e ∈ searchResidentialTrace (pagedUpstream records 200) rsr, e.2 + 200 ≤ 1000 := by
  have key := loop_paged_over records hN 1000 0 { rsr with pageSize := 200 } (by omega) (by omega)
  have h0 : atPage { rsr with pageSize := 200 } ((0 : Nat) : Int)
      = { rsr with pageSize := 200, pageNumber := 0 } := by
    simp [atPage]
  have h1 : records.take (0 * 200) = [] := by simp
  rw [h0, h1] at key
  constructor
  · show (searchResidentialLoop (pagedUpstream records 200) 1000
      { rsr with pageSize := 200, pageNumber := 0 } []).1 = _
    rw [key]
  · show ∀ e ∈ (searchResidentialLoop (pagedUpstream records 200) 1000
      { rsr with pageSize := 200, pageNumber := 0 } []).2, e.2 + 200 ≤ 1000
    rw [key]
    intro e he
    simp only [List.mem_map, List.mem_range'_1] at he
    obtain ⟨j, ⟨hj0, hj5⟩, hje⟩ := he
    rw [← hje]
    simp only []
    omega

/-- Witness for claim C2: a concrete 1001-record upstream. -/
theorem c2_never_pages_past_cap_witness :
    1000 < (List.replicate 1001 srEmpty).length ∧
    (SearchResidential (pagedUpstream (List.replicate 1001 srEmpty) 200) rsrDefault
        = Except.ok ((List.replicate 1001 srEmpty).take 1000) ∧
      ∀ e ∈ searchResidentialTrace (pagedUpstream (List.replicate 1001 srEmpty) 200) rsrDefault,
        e.2 + 200 ≤ 1000) :=
  ⟨by rw [List.length_replicate]; omega,
    c2_never_pages_past_cap (List.replicate 1001 srEmpty) rsrDefault
      (by rw [List.length_replicate]; omega)⟩

lemma loop_failing (records : List SearchResult) (P failAt : Nat) (e : String)
    (hP : 0 < P) (hle : failAt * P ≤ records.length) (hcap : failAt * P < 1000) :
    ∀ (fuel k : Nat) (rsr : ResidentialSearchRequest), k ≤ failAt →
      1000 ≤ fuel + k * P →
      searchResidentialLoop (failingUpstream records P failAt e) fuel (atPage rsr (k : Int))
          (records.take (k * P))
        = (Except.error e,
           (List.range' k (failAt + 1 - k)).map
             (fun (j : Nat) => (atPage rsr (j : Int), j * P))) := by
  intro fuel
  induction fuel with
  | zero =>
    intro k rsr hkf hinv
    have : False := by
      have hkp : k * P ≤ failAt * P := Nat.mul_le_mul_right P hkf
      omega
    exact absurd this (fun h => h)
  | succ fuel ih =>
    intro k rsr hkf hinv
    have hkp : k * P ≤ failAt * P := Nat.mul_le_mul_right P hkf
    have hlen : (records.take (k * P)).length = k * P := by
      rw [List.length_take]
      omega
    rw [loop_succ]
    simp only [hlen]
    rw [if_pos (by omega)]
    by_cases hk : k = failAt
    · subst hk
      have hfetch : failingUpstream records P k e (atPage rsr (k : Int))
          = Except.error e := by
        simp [failingUpstream, atPage]
      simp only [hfetch]
      have hr : k + 1 - k = 1 := by omega
      rw [hr]
      rfl
    · have hklt : k < failAt := by omega
      have hfetch : failingUpstream records P failAt e (atPage rsr (k : Int))
          = Except.ok ((records.drop (k * P)).take P) := by
        simp only [failingUpstream, atPage]
        rw [if_neg (by simp [Int.toNat_natCast]; omega)]
        simp [pagedUpstream]
      simp only [hfetch]
      have hnext : (k + 1) * P ≤ failAt * P := Nat.mul_le_mul_right P (by omega)
      have hplen : ((records.drop (k * P)).take P).length = min P (records.length - k * P) := by
        rw [List.length_take, List.length_drop]
      rw [hplen, if_neg (by rw [Nat.succ_mul] at hnext; omega)]
      have hacc : records.take (k * P) ++ (records.drop (k * P)).take P
          = records.take ((k + 1) * P) := by
        rw [Nat.succ_mul, List.take_add]
      have hrsr : { atPage rsr (k : Int) with
            pageNumber := (atPage rsr (k : Int)).pageNumber + 1 }
          = atPage rsr ((k + 1 : Nat) : Int) := by
        simp [atPage]
      rw [hacc, hrsr, ih (k + 1) rsr (by omega) (by rw [Nat.succ_mul] at hnext ⊢; omega)]
      have hr : failAt + 1 - k = (failAt + 1 - (k + 1)) + 1 := by omega
      rw [hr]
      have hcons : List.range' k ((failAt + 1 - (k + 1)) + 1)
          = k :: List.range' (k + 1) (failAt + 1 - (k + 1)) := rfl
      rw [hcons, List.map_cons]

/-- Claim C4: if the page request for page `failAt` fails after `failAt`
successful nonempty pages, SearchResidential aborts at that point and returns
exactly that error — the `Except.error` result carries no records, matching
the Go `return nil, err`, so no accumulated records are surfaced — and the
trace shows the failAt+1 requests issued (pages 0..failAt). -/
theorem c4_error_aborts_call (records : List SearchResult) (P failAt : Nat) (e : String)
    (rsr : ResidentialSearchRequest) (hP : 0 < P)
    (hle : failAt * P ≤ records.length) (hcap : failAt * P < 1000) :
    SearchResidential (failingUpstream records P failAt e) rsr = Except.error e ∧
    (searchResidentialTrace (failingUpstream records P failAt e) rsr).length = failAt + 1 := by
  have key := loop_failing records P failAt e hP hle hcap 1000 0
    { rsr with pageSize := 200 } (by omega) (by omega)
  have h0 : atPage { rsr with pageSize := 200 } ((0 : Nat) : Int)
      = { rsr with pageSize := 200, pageNumber := 0 } := by
    simp [atPage]
  have h1 : records.take (0 * P) = [] := by simp
  rw [h0, h1] at key
  constructor
  · show (searchResidentialLoop (failingUpstream records P failAt e) 1000
      { rsr with pageSize := 200, pageNumber := 0 } []).1 = _
    rw [key]
  · show (searchResidentialLoop (failingUpstream records P failAt e) 1000
      { rsr with pageSize := 200, pageNumber := 0 } []).2.length = _
    rw [key]
    simp [List.length_range']

/-- Witness for claim C4: 4 records in pages of 2, failure on page 1 after
one successful page: the call returns the error and issued 2 requests. -/
theorem c4_error_aborts_call_witness :
    0 < 2 ∧ 1 * 2 ≤ (List.replicate 4 srEmpty).length ∧ 1 * 2 < 1000 ∧
    (SearchResidential (failingUpstream (List.replicate 4 srEmpty) 2 1 ("boom")) rsrDefault
        = Except.error ("boom") ∧
      (searchResidentialTrace (failingUpstream (List.replicate 4 srEmpty) 2 1 ("boom"))
          rsrDefault).length = 1 + 1) :=
  ⟨by decide, by rw [List.length_replicate]; omega, by decide,
    c4_error_aborts_call (List.replicate 4 srEmpty) 2 1 ("boom") rsrDefault (by decide)
      (by rw [List.length_replicate]; omega) (by decide)⟩

lemma loop_trace_shape
    (fetchPage : ResidentialSearchRequest → Except String (List SearchResult)) :
    ∀ (fuel : Nat) (rsr : ResidentialSearchRequest) (acc : List SearchResult),
      (searchResidentialLoop fetchPage fuel rsr acc).2.map Prod.fst
        = (List.range' 0 (searchResidentialLoop fetchPage fuel rsr acc).2.length).map
            (fun (j : Nat) => atPage rsr (rsr.pageNumber + (j : Int))) := by
  intro fuel
  induction fuel with
  | zero => intro rsr acc; rfl
  | succ fuel ih =>
    intro rsr acc
    rw [loop_succ]
    by_cases hg : acc.length < 1000
    · rw [if_pos hg]
      cases hfe : fetchPage rsr with
      | error e => simp [atPage]
      | ok page =>
        by_cases hpg : page.length = 0
        · simp only [if_pos hpg]
          simp [atPage]
        · simp only [if_neg hpg, List.map_cons, List.length_cons]
          have hcons : List.range' 0
                ((searchResidentialLoop fetchPage fuel
                  { rsr with pageNumber := rsr.pageNumber + 1 } (acc ++ page)).2.length + 1)
              = 0 :: List.range' 1
                (searchResidentialLoop fetchPage fuel
                  { rsr with pageNumber := rsr.pageNumber + 1 } (acc ++ page)).2.length := rfl
          rw [hcons, List.map_cons]
          refine List.cons_eq_cons.mpr ⟨?_, ?_⟩
          · simp [atPage]
          · rw [ih { rsr with pageNumber := rsr.pageNumber + 1 } (acc ++ page)]
            rw [List.range'_eq_map_range, List.range'_eq_map_range, List.map_map, List.map_map]
            congr 1
            funext i
            simp only [Function.comp, atPage]
            congr 1
            push_cast
            ring
    · rw [if_neg hg]
      rfl

lemma trace_pos (fetchPage : ResidentialSearchRequest → Except String (List SearchResult))
    (rsr : ResidentialSearchRequest) :
    0 < (searchResidentialTrace fetchPage rsr).length := by
  show 0 < (searchResidentialLoop fetchPage 1000
    { rsr with pageSize := 200, pageNumber := 0 } []).2.length
  rw [show (1000 : Nat) = 999 + 1 from rfl, loop_succ]
  rw [if_pos (by simp)]
  cases hfe : fetchPage { rsr with pageSize := 200, pageNumber := 0 } with
  | error e => simp
  | ok page =>
    by_cases hpg : page.length = 0
    · simp [hpg]
    · simp [hpg]

/-- Claim C6: every call issues at least one request; the issued requests
are, in order, the caller's criteria with pageSize overridden to 200 and
pageNumber overridden to 0, 1, 2, ... with no page number repeated or
skipped — the page number is incremented by exactly one after each
successful nonempty page, and every other field is the caller's. -/
theorem c6_page_order
    (fetchPage : ResidentialSearchRequest → Except String (List SearchResult))
    (rsr : ResidentialSearchRequest) :
    0 < (searchResidentialTrace fetchPage rsr).length ∧
    (searchResidentialTrace fetchPage rsr).map Prod.fst
      = (List.range' 0 (searchResidentialTrace fetchPage rsr).length).map
          (fun (j : Nat) => { rsr with pageSize := 200, pageNumber := (j : Int) }) := by
  refine ⟨trace_pos fetchPage rsr, ?_⟩
  show (searchResidentialLoop fetchPage 1000
      { rsr with pageSize := 200, pageNumber := 0 } []).2.map Prod.fst
    = (List.range' 0 (searchResidentialLoop fetchPage 1000
        { rsr with pageSize := 200, pageNumber := 0 } []).2.length).map
        (fun (j : Nat) => { rsr with pageSize := 200, pageNumber := (j : Int) })
  rw [loop_trace_shape fetchPage 1000 { rsr with pageSize := 200, pageNumber := 0 } []]
  congr 1
  funext j
  simp [atPage]

lemma loop_fuel_irrel
    (fetchPage : ResidentialSearchRequest → Except String (List SearchResult)) :
    ∀ (fuel fuel' : Nat) (rsr : ResidentialSearchRequest) (acc : List SearchResult),
      1000 ≤ fuel + acc.length → 1000 ≤ fuel' + acc.length →
      searchResidentialLoop fetchPage fuel rsr acc
        = searchResidentialLoop fetchPage fuel' rsr acc := by
  intro fuel
  induction fuel with
  | zero =>
    intro fuel' rsr acc h h'
    cases fuel' with
    | zero => rfl
    | succ m =>
      rw [loop_succ, if_neg (by omega)]
      rfl
  | succ fuel ih =>
    intro fuel' rsr acc h h'
    cases fuel' with
    | zero =>
      rw [loop_succ, if_neg (by omega)]
      rfl
    | succ m =>
      rw [loop_succ, loop_succ]
      by_cases hg : acc.length < 1000
      · rw [if_pos hg, if_pos hg]
        cases hfe : fetchPage rsr with
        | error e => rfl
        | ok page =>
          by_cases hpg : page.length = 0
          · simp only [if_pos hpg]
          · simp only [if_neg hpg]
            have hrec := ih m { rsr with pageNumber := rsr.pageNumber + 1 } (acc ++ page)
              (by rw [List.length_append]; omega) (by rw [List.length_append]; omega)
            rw [hrec]
      · rw [if_neg hg, if_neg hg]

lemma trace_length_le_fuel
    (fetchPage : ResidentialSearchRequest → Except String (List SearchResult)) :
    ∀ (fuel : Nat) (rsr : ResidentialSearchRequest) (acc : List SearchResult),
      (searchResidentialLoop fetchPage fuel rsr acc).2.length ≤ fuel := by
  intro fuel
  induction fuel with
  | zero => intro rsr acc; simp [searchResidentialLoop]
  | succ fuel ih =>
    intro rsr acc
    rw [loop_succ]
    by_cases hg : acc.length < 1000
    · rw [if_pos hg]
      cases hfe : fetchPage rsr with
      | error e => simp
      | ok page =>
        by_cases hpg : page.length = 0
        · simp [hpg]
        · simp only [if_neg hpg, List.length_cons]
          have := ih { rsr with pageNumber := rsr.pageNumber + 1 } (acc ++ page)
          omega
    · rw [if_neg hg]
      simp

/-- Claim C10: for every page-fetch function (each call returns an error or
a finite page), the capped loop terminates: any fuel satisfying
`1000 ≤ fuel + acc.length` — each iteration consumes one fuel while either
finishing or growing the accumulator by at least one record under the
`len < 1000` guard — yields the identical result, so the fuel-1000 run used
by `SearchResidential` is the loop's true (terminating) semantics; moreover
one call issues at most 1000 page requests. -/
theorem c10_loop_terminates :
    (∀ (fetchPage : ResidentialSearchRequest → Except String (List SearchResult))
       (fuel fuel' : Nat) (rsr : ResidentialSearchRequest) (acc : List SearchResult),
      1000 ≤ fuel + acc.length → 1000 ≤ fuel' + acc.length →
      searchResidentialLoop fetchPage fuel rsr acc
        = searchResidentialLoop fetchPage fuel' rsr acc) ∧
    (∀ (fetchPage : ResidentialSearchRequest → Except String (List SearchResult))
       (rsr : ResidentialSearchRequest),
      (searchResidentialTrace fetchPage rsr).length ≤ 1000) :=
  ⟨fun fetchPage => loop_fuel_irrel fetchPage,
   fun fetchPage rsr => trace_length_le_fuel fetchPage 1000
     { rsr with pageSize := 200, pageNumber := 0 } []⟩

/-- Witness for claim C10 at a concrete fetch function and fuel pair. -/
theorem c10_loop_terminates_witness :
    1000 ≤ 1000 + ([] : List SearchResult).length ∧
    1000 ≤ 1001 + ([] : List SearchResult).length ∧
    (searchResidentialLoop (fun _ => Except.ok ([srEmpty])) 1000 rsrDefault []
       = searchResidentialLoop (fun _ => Except.ok ([srEmpty])) 1001 rsrDefault []) ∧
    (searchResidentialTrace (fun _ => Except.ok ([srEmpty])) rsrDefault).length ≤ 1000 :=
  ⟨by decide, by decide,
    c10_loop_terminates.1 (fun _ => Except.ok ([srEmpty])) 1000 1001 rsrDefault []
      (by decide) (by decide),
    c10_loop_terminates.2 (fun _ => Except.ok ([srEmpty])) rsrDefault⟩

lemma collect_go
    (search : ResidentialSearchRequest → Except String (List SearchResult)) :
    ∀ (searches : List ResidentialSearchRequest) (t : List (AggregateKey × Nat)),
      List.foldl
          (fun table rsr =>
            match search rsr with
            | Except.error _ => table
            | Except.ok listings => aggregateInto table listings)
          t searches
        = aggregateInto t
            ((searches.filterMap (fun r => (search r).toOption)).flatten) := by
  intro searches
  induction searches with
  | nil => intro t; rfl
  | cons r rs ih =>
    intro t
    cases hfe : search r with
    | error e =>
      have h1 : (search r).toOption = none := by rw [hfe]; rfl
      simp only [List.foldl_cons, List.filterMap_cons, h1]
      simp only [hfe]
      exact ih t
    | ok listings =>
      have h1 : (search r).toOption = some listings := by rw [hfe]; rfl
      simp only [List.foldl_cons, List.filterMap_cons, h1]
      simp only [hfe]
      rw [ih (aggregateInto t listings), List.flatten_cons]
      simp [aggregateInto, List.foldl_append]

/-- Claim C7: in batch mode the shared table after a scrape equals the
aggregate of exactly the successfully fetched criteria sets' listings — a
set whose fetch fails is skipped and contributes nothing, while all other
sets still contribute; in on-demand mode a fetch failure fails the whole
request with the visible error message written with status 500. -/
theorem c7_failure_policy :
    (∀ (search : ResidentialSearchRequest → Except String (List SearchResult))
       (searches : List ResidentialSearchRequest),
      collect search searches
        = aggregateInto []
            ((searches.filterMap (fun r => (search r).toOption)).flatten)) ∧
    (∀ (fetchPage : ResidentialSearchRequest → Except String (List SearchResult))
       (state suburb postCode e : String),
      SearchResidential fetchPage (onDemandCriteria state suburb postCode)
          = Except.error e →
      domainHandler fetchPage state suburb postCode
        = Except.error ("error searching domain: " ++ e)) := by
  constructor
  · intro search searches
    exact collect_go search searches []
  · intro fetchPage st sb pc e h
    simp [domainHandler, h]

/-- Witness for claim C7: an upstream whose every page request fails. -/
theorem c7_failure_policy_witness :
    (collect (SearchResidential (fun _ => Except.error ("boom"))) [rsrDefault]
       = aggregateInto []
           (([rsrDefault].filterMap
             (fun r => (SearchResidential (fun _ => Except.error ("boom")) r).toOption)).flatten)) ∧
    SearchResidential (fun _ => Except.error ("boom"))
        (onDemandCriteria ("") ("Pyrmont") ("")) = Except.error ("boom") ∧
    domainHandler (fun _ => Except.error ("boom")) ("") ("Pyrmont") ("")
      = Except.error ("error searching domain: " ++ "boom") :=
  ⟨c7_failure_policy.1 (SearchResidential (fun _ => Except.error ("boom"))) [rsrDefault],
   by decide,
   c7_failure_policy.2 (fun _ => Except.error ("boom")) ("") ("Pyrmont") ("") ("boom")
     (by decide)⟩
